import Mathlib

/-!
Shallow embedding of the streamlit population dashboard (`src/app.py`).

Dataframes are embedded as lists of rows, pandas column operations become
list operations, and chart construction calls become records of their
encoding arguments.  Float arithmetic in the source is embedded as exact
rational arithmetic.
-/

/-- A row of the prefecture dataframe built by `load_prefecture_data`:
columns 都道府県, 人口, 面積, 人口密度. -/
structure PrefRow where
  prefecture : String
  population : ℕ
  area : ℕ
  density : ℚ
deriving DecidableEq

/-- The 47 prefecture names (the `prefectures` list in `load_prefecture_data`). -/
def prefectures : List String :=
  ["北海道", "青森県", "岩手県", "宮城県", "秋田県", "山形県", "福島県",
   "茨城県", "栃木県", "群馬県", "埼玉県", "千葉県", "東京都", "神奈川県",
   "新潟県", "富山県", "石川県", "福井県", "山梨県", "長野県", "岐阜県",
   "静岡県", "愛知県", "三重県", "滋賀県", "京都府", "大阪府", "兵庫県",
   "奈良県", "和歌山県", "鳥取県", "島根県", "岡山県", "広島県", "山口県",
   "徳島県", "香川県", "愛媛県", "高知県", "福岡県", "佐賀県", "長崎県",
   "熊本県", "大分県", "宮崎県", "鹿児島県", "沖縄県"]

/-- The `populations` list of `load_prefecture_data`. -/
def populations : List ℕ :=
  [5224614, 1237984, 1210534, 2301996, 959502, 1068027, 1833152,
   2867009, 1933146, 1939110, 7344765, 6287734, 14047594, 9237337,
   2201272, 1034814, 1132526, 766863, 809974, 2048011, 1978742,
   3633202, 7542415, 1770254, 1413610, 2578087, 8837685, 5465002,
   1324473, 922584, 553407, 671602, 1888432, 2799702, 1342059,
   728633, 950244, 1334841, 691527, 5135214, 811442, 1312317,
   1738301, 1123852, 1069576, 1588256, 1467480]

/-- The `areas` list of `load_prefecture_data` (km²). -/
def areas : List ℕ :=
  [83424, 9646, 15275, 7282, 11638, 9323, 13784,
   6097, 6408, 6362, 3798, 5158, 2194, 2416,
   12584, 4248, 4186, 4190, 4465, 13562, 10621,
   7777, 5173, 5774, 4017, 4612, 1905, 8401,
   3691, 4725, 3507, 6708, 7115, 2833, 6112,
   4147, 1877, 5676, 7103, 4988, 832, 1311,
   7409, 6341, 7735, 9187, 2281]

/-- The dataframe of `load_prefecture_data`: the dataframe zipping the three columns, with the
人口密度 column computed as `pop / area` over `zip(populations, areas)`. -/
def load_prefecture_data : List PrefRow :=
  (prefectures.zip (populations.zip areas)).map fun x =>
    { prefecture := x.1, population := x.2.1, area := x.2.2,
      density := (x.2.1 : ℚ) / (x.2.2 : ℚ) }

/-- The encoding arguments of a `px.scatter` call. -/
structure ScatterSpec where
  data : List PrefRow
  x : String
  y : String
  size : String
  color : String

/-- The scatter chart `fig2` of the density view (`px.scatter` at
app.py:296-306): x=人口, y=人口密度, size=人口, color=人口密度 over the
whole prefecture dataframe. -/
def density_scatter : ScatterSpec :=
  { data := load_prefecture_data
    x := "人口"
    y := "人口密度"
    size := "人口"
    color := "人口密度" }

/-- The four view kinds of the sidebar selectbox. -/
inductive ViewKind
  | prefecture
  | age
  | trend
  | density
deriving DecidableEq

/-- The `if data_type == ... / elif ...` dispatch chain (app.py:106-306).
The chain has no `else` branch, which is embedded as the `none` result. -/
def dispatch (data_type : String) : Option ViewKind :=
  if data_type = "都道府県別人口" then some ViewKind.prefecture
  else if data_type = "年齢別人口" then some ViewKind.age
  else if data_type = "人口推移" then some ViewKind.trend
  else if data_type = "人口密度" then some ViewKind.density
  else none

/-- The 10 age band labels (`age_groups` in `load_age_data`). -/
def age_groups : List String :=
  ["0-9歳", "10-19歳", "20-29歳", "30-39歳", "40-49歳",
   "50-59歳", "60-69歳", "70-79歳", "80-89歳", "90歳以上"]

/-- The `populations` list of `load_age_data`. -/
def age_populations : List ℕ :=
  [9500000, 11200000, 12800000, 14500000, 16800000,
   17200000, 16500000, 12400000, 8100000, 2500000]

/-- The 年齢層 × 人口 dataframe of `load_age_data`. -/
def load_age_data : List (String × ℕ) := age_groups.zip age_populations

/-- Column sum of 人口 over the rows whose 年齢層 is in `labels`, the
`df_age[df_age["年齢層"].isin(labels)]["人口"].sum()` pattern. -/
def sumIsin (labels : List String) (df : List (String × ℕ)) : ℕ :=
  ((df.filter fun r => labels.contains r.1).map fun r => r.2).sum

/-- The membership list for 年少人口 (app.py:163). -/
def young_labels : List String := ["0-9歳", "10-19歳"]

/-- The membership list for 生産年齢人口 (app.py:164). -/
def working_labels : List String := ["20-29歳", "30-39歳", "40-49歳", "50-59歳"]

/-- The membership list for 高齢人口 (app.py:165, also reused at app.py:231). -/
def elderly_labels : List String := ["60-69歳", "70-79歳", "80-89歳", "90歳以上"]

/-- The traditional-classification dataframe `df_display` built at
app.py:161-170: three aggregated groups. -/
def traditional_df (df : List (String × ℕ)) : List (String × ℕ) :=
  [("年少人口（0-19歳）", sumIsin young_labels df),
   ("生産年齢人口（20-59歳）", sumIsin working_labels df),
   ("高齢人口（60歳以上）", sumIsin elderly_labels df)]

/-- An age dataframe with the 10 fixed band labels and arbitrary
populations, for stating properties of the aggregation over any data. -/
def mkAgeDf (p0 p1 p2 p3 p4 p5 p6 p7 p8 p9 : ℕ) : List (String × ℕ) :=
  age_groups.zip [p0, p1, p2, p3, p4, p5, p6, p7, p8, p9]

/-- Embeds `years = list(range(2010, 2024))` of `load_time_series_data`. -/
def years : List ℕ := List.range' 2010 14

/-- The `total_pop` list of `load_time_series_data`. -/
def total_pop : List ℕ :=
  [128057000, 127799000, 127515000, 127298000, 127095000,
   126933000, 126706000, 126443000, 126167000, 125836000,
   125502000, 125124000, 124777000, 124612000]

/-- The 年 × 総人口 dataframe of `load_time_series_data`. -/
def load_time_series_data : List (ℕ × ℕ) := years.zip total_pop

/-- The 総人口 column of the time-series dataframe. -/
def total_pop_column : List ℕ := load_time_series_data.map fun r => r.2

/-- Embeds `change = last - first` over the 総人口 column, the
iloc[-1] minus iloc[0] computation (app.py:267). -/
def trend_change : ℤ :=
  (total_pop_column.getLastD 0 : ℤ) - (total_pop_column.headD 0 : ℤ)

/-- Embeds `annual_change = change / len(df_time)` (app.py:271). -/
def trend_annual_change : ℚ :=
  (trend_change : ℚ) / (load_time_series_data.length : ℚ)

/-- Embeds `change_rate = (change / first) * 100` over the 総人口
column (app.py:275). -/
def trend_change_rate : ℚ :=
  ((trend_change : ℚ) / (total_pop_column.headD 0 : ℚ)) * 100

/-- Round a rational to the nearest integer with ties going to the even
integer: the rounding used by Python's `{:.Nf}` float formatting and by
`DataFrame.round`. -/
def roundHalfEven (q : ℚ) : ℤ :=
  if q - ⌊q⌋ < 1/2 then ⌊q⌋
  else if 1/2 < q - ⌊q⌋ then ⌊q⌋ + 1
  else if ⌊q⌋ % 2 = 0 then ⌊q⌋ else ⌊q⌋ + 1

/-- The numeric value rendered by a `{:.1f}` format or a `.round(1)`. -/
def round1 (q : ℚ) : ℚ := (roundHalfEven (q * 10) : ℚ) / 10

/-- The column sum `df["人口"].sum()` over an age-view display dataframe. -/
def df_total (df : List (String × ℕ)) : ℕ := (df.map fun r => r.2).sum

/-- The `elderly_60plus` sum of the detailed branch (app.py:231). -/
def elderly_60plus : ℕ := sumIsin elderly_labels load_age_data

/-- Detailed-mode 高齢化率 (app.py:231-232), over the detailed total. -/
def elderly_ratio_detailed : ℚ :=
  (elderly_60plus : ℚ) / (df_total load_age_data : ℚ) * 100

/-- Substring test, embedding pandas `Series.str.contains` for a plain
(non-regex-special) pattern. -/
def strContains (s pat : String) : Bool :=
  s.data.tails.any fun t => pat.data.isPrefixOf t

/-- The 人口 sum of the traditional rows whose 年齢層 contains 高齢
(app.py:228). -/
def elderly_traditional : ℕ :=
  (((traditional_df load_age_data).filter fun r => strContains r.1 "高齢").map
    fun r => r.2).sum

/-- Traditional-mode 高齢化率 (app.py:228-229), over the traditional total. -/
def elderly_ratio_traditional : ℚ :=
  (elderly_traditional : ℚ) / (df_total (traditional_df load_age_data) : ℚ) * 100

/-- Positional index of the first maximal value, the semantics of
`Series.idxmax` over a positionally indexed column (app.py:222). -/
def idxmaxPop : List ℕ → ℕ
  | [] => 0
  | v :: rest => if v < rest.getD (idxmaxPop rest) 0 then idxmaxPop rest + 1 else 0

/-- The 年齢層 label reported as 最大人口層 (app.py:222-223). -/
def max_group_label (df : List (String × ℕ)) : String :=
  (df.map fun r => r.1).getD (idxmaxPop (df.map fun r => r.2)) ""

/-- The 構成比 column (app.py:237): each row's share of the column total,
times 100, rounded to one decimal. -/
def share_column (df : List (String × ℕ)) : List ℚ :=
  df.map fun r => round1 ((r.2 : ℚ) / (df_total df : ℚ) * 100)

/-- One-decimal string rendering, for the `astype(str)` of a value already
rounded to one decimal. -/
def oneDecimalStr (q : ℚ) : String :=
  toString (roundHalfEven (q * 10) / 10) ++ "." ++ toString (roundHalfEven (q * 10) % 10)

/-- The 構成比表示 column (app.py:238): the share as a string plus "%". -/
def share_display_column (df : List (String × ℕ)) : List String :=
  (share_column df).map fun q => oneDecimalStr q ++ "%"

/-- Embeds `DataFrame.nlargest(n, column)`, which keeps the first
occurrence on ties:
a stable sort by the key descending, then take `n`. -/
def nlargestBy {α β : Type} [LinearOrder β] (key : α → β) (n : ℕ) (l : List α) :
    List α :=
  (l.insertionSort fun a b => key b ≤ key a).take n

/-- Embeds `DataFrame.nsmallest(n, column)`, which keeps the first
occurrence on ties:
a stable sort by the key ascending, then take `n`. -/
def nsmallestBy {α β : Type} [LinearOrder β] (key : α → β) (n : ℕ) (l : List α) :
    List α :=
  (l.insertionSort fun a b => key a ≤ key b).take n

/-- The prefecture-view `top_10 = df_pref.nlargest(10, "人口")` (app.py:141),
over index-tagged rows so that row identity is preserved. -/
def top10_pop (df : List PrefRow) : List (ℕ × PrefRow) :=
  nlargestBy (fun x => x.2.population) 10 df.enum

/-- The prefecture-view `bottom_10 = df_pref.nsmallest(10, "人口")`
(app.py:146), over index-tagged rows. -/
def bottom10_pop (df : List PrefRow) : List (ℕ × PrefRow) :=
  nsmallestBy (fun x => x.2.population) 10 df.enum

/-- The density-view `df_pref.nlargest(20, "人口密度")` (app.py:285), over
index-tagged rows. -/
def top20_density : List (ℕ × PrefRow) :=
  nlargestBy (fun x => x.2.density) 20 load_prefecture_data.enum

/-- The prefecture dataframe with each density written as the exact integer
fraction `Rat.divInt`; computationally convenient form, proved equal to
`load_prefecture_data` below. -/
def load_prefecture_data_frac : List PrefRow :=
  (prefectures.zip (populations.zip areas)).map fun x =>
    { prefecture := x.1, population := x.2.1, area := x.2.2,
      density := Rat.divInt x.2.1 x.2.2 }

lemma load_prefecture_data_eq : load_prefecture_data = load_prefecture_data_frac := by
  unfold load_prefecture_data load_prefecture_data_frac
  refine List.map_congr_left fun x _ => ?_
  have hd : (x.2.1 : ℚ) / (x.2.2 : ℚ) = Rat.divInt x.2.1 x.2.2 := by
    rw [Rat.divInt_eq_div]
    push_cast
    ring
  rw [hd]

/-- Characterization of `roundHalfEven` away from exact halves. -/
lemma roundHalfEven_eq_of {q : ℚ} {k : ℤ} (h1 : (k : ℚ) - 1/2 < q)
    (h2 : q < (k : ℚ) + 1/2) : roundHalfEven q = k := by
  unfold roundHalfEven
  rcases le_or_lt (k : ℚ) q with hk | hk
  · have hf : ⌊q⌋ = k := by
      rw [Int.floor_eq_iff]
      refine ⟨hk, lt_trans h2 (by linarith)⟩
    rw [hf, if_pos (by linarith)]
  · have hf : ⌊q⌋ = k - 1 := by
      rw [Int.floor_eq_iff]
      constructor
      · push_cast
        linarith
      · push_cast
        linarith
    rw [hf, if_neg (by push_cast; linarith), if_pos (by push_cast; linarith)]
    omega

/-- Evaluation rule for `round1` away from exact halves. -/
lemma round1_eq (n : ℤ) {q x : ℚ} (h1 : (n : ℚ) - 1/2 < q * 10)
    (h2 : q * 10 < (n : ℚ) + 1/2) (h3 : (n : ℚ) / 10 = x) : round1 q = x := by
  unfold round1
  rw [roundHalfEven_eq_of h1 h2, h3]

/-- C6: the prefecture dataset has exactly 47 records and each record's
density field is its population divided by its area. -/
theorem prefecture_dataset_ok :
    load_prefecture_data.length = 47 ∧
      ∀ r ∈ load_prefecture_data, r.density = (r.population : ℚ) / (r.area : ℚ) := by
  constructor
  · rfl
  · intro r hr
    obtain ⟨x, hx, rfl⟩ := List.mem_map.mp hr
    rfl

/-- C1 counterexample: in the density-view scatter it is not the case that
both the size encoding and the color encoding are the density field —
the size encoding is the 人口 (population) column. -/
theorem density_scatter_not_both_density :
    ¬ (density_scatter.data.length = 47 ∧ density_scatter.size = "人口密度" ∧
        density_scatter.color = "人口密度") := by
  intro h
  exact absurd h.2.1 (by decide)

/-- C1 amended: the density-view scatter is built over all 47 prefecture
records with x=population, y=density, its size encoding the population
field and its color encoding the density field. -/
theorem density_scatter_encodings :
    density_scatter.data.length = 47 ∧ density_scatter.x = "人口" ∧
      density_scatter.y = "人口密度" ∧ density_scatter.size = "人口" ∧
      density_scatter.color = "人口密度" := by
  refine ⟨by decide, rfl, rfl, rfl, rfl⟩

/-- C10: any selection value outside the four fixed strings falls through
the if/elif chain, producing none of the four views and no error. -/
theorem dispatch_unknown_none (s : String)
    (h : s ∉ ["都道府県別人口", "年齢別人口", "人口推移", "人口密度"]) :
    dispatch s = none := by
  simp only [List.mem_cons, List.not_mem_nil, or_false, not_or] at h
  obtain ⟨h1, h2, h3, h4⟩ := h
  simp [dispatch, h1, h2, h3, h4]

/-- C10 witness: the selection value "人口" is outside the four fixed
strings and dispatches to no view. -/
theorem dispatch_unknown_none_witness : dispatch "人口" = none :=
  dispatch_unknown_none "人口" (by decide)

/-- C2: on the fixed 14-record time series (years 2010..2023), the absolute
change is 124612000 − 128057000 = −3445000, the average annual change is
change/14 (≈ −246071, the integer a `{:.0f}` format renders), and the
percentage change is change/first × 100 (≈ −2.7, to one rendered decimal). -/
theorem trend_metrics_ok :
    load_time_series_data.length = 14 ∧
    load_time_series_data.map (fun r => r.1) = List.range' 2010 14 ∧
    trend_change = 124612000 - 128057000 ∧
    trend_change = -3445000 ∧
    trend_annual_change = (-3445000 : ℚ) / 14 ∧
    roundHalfEven trend_annual_change = -246071 ∧
    trend_change_rate = (-3445000 : ℚ) / 128057000 * 100 ∧
    roundHalfEven (trend_change_rate * 10) = -27 := by
  have hc : trend_change = -3445000 := by decide
  have hlen : load_time_series_data.length = 14 := by decide
  have hh : total_pop_column.headD 0 = 128057000 := by decide
  have ha : trend_annual_change = (-3445000 : ℚ) / 14 := by
    unfold trend_annual_change
    rw [hc, hlen]
    norm_num
  have hr : trend_change_rate = (-3445000 : ℚ) / 128057000 * 100 := by
    unfold trend_change_rate
    rw [hc, hh]
    norm_num
  refine ⟨hlen, by decide, by decide, hc, ha, ?_, hr, ?_⟩
  · rw [ha]
    apply roundHalfEven_eq_of <;> norm_num
  · rw [hr]
    apply roundHalfEven_eq_of <;> norm_num

/-- C3: the traditional classification covers each of the 10 age bands
exactly once, so for any populations on the 10 fixed bands the 3 aggregated
group populations sum to the 10 band populations' sum. -/
theorem traditional_partition_ok (p0 p1 p2 p3 p4 p5 p6 p7 p8 p9 : ℕ) :
    (∀ lab ∈ age_groups,
      ([young_labels.contains lab, working_labels.contains lab,
        elderly_labels.contains lab].count true) = 1) ∧
    df_total (traditional_df (mkAgeDf p0 p1 p2 p3 p4 p5 p6 p7 p8 p9)) =
      df_total (mkAgeDf p0 p1 p2 p3 p4 p5 p6 p7 p8 p9) := by
  refine ⟨by decide, ?_⟩
  have h1 : df_total (traditional_df (mkAgeDf p0 p1 p2 p3 p4 p5 p6 p7 p8 p9)) =
      (p0 + (p1 + 0)) + ((p2 + (p3 + (p4 + (p5 + 0)))) +
        ((p6 + (p7 + (p8 + (p9 + 0)))) + 0)) := rfl
  have h2 : df_total (mkAgeDf p0 p1 p2 p3 p4 p5 p6 p7 p8 p9) =
      p0 + (p1 + (p2 + (p3 + (p4 + (p5 + (p6 + (p7 + (p8 + (p9 + 0))))))))) := rfl
  rw [h1, h2]
  omega

/-- C9: on the fixed age dataset the detailed-mode and traditional-mode
elderly ratios are the same number; both equal the 60+ band sum divided by
the all-band sum, times 100. -/
theorem elderly_ratio_modes_agree :
    elderly_ratio_detailed = elderly_ratio_traditional ∧
    elderly_ratio_detailed =
      (sumIsin elderly_labels load_age_data : ℚ) /
        (df_total load_age_data : ℚ) * 100 := by
  have h1 : elderly_traditional = 39500000 := by decide
  have h2 : df_total (traditional_df load_age_data) = 121500000 := by decide
  have h3 : sumIsin elderly_labels load_age_data = 39500000 := by decide
  have h4 : df_total load_age_data = 121500000 := by decide
  unfold elderly_ratio_detailed elderly_ratio_traditional elderly_60plus
  rw [h1, h2, h3, h4]
  exact ⟨rfl, rfl⟩

/-- The index `idxmaxPop` returns is an in-range index of a maximal value, and every
strictly earlier position holds a strictly smaller value: the first
occurrence of the maximum. -/
lemma idxmaxPop_spec (l : List ℕ) (h : l ≠ []) :
    idxmaxPop l < l.length ∧
      (∀ j, j < l.length → l.getD j 0 ≤ l.getD (idxmaxPop l) 0) ∧
      (∀ j, j < idxmaxPop l → l.getD j 0 < l.getD (idxmaxPop l) 0) := by
  induction l with
  | nil => exact absurd rfl h
  | cons v rest ih =>
    by_cases hr : rest = []
    · subst hr
      refine ⟨by simp [idxmaxPop], ?_, ?_⟩
      · intro j hj
        have hj0 : j = 0 := by
          simp only [List.length_cons, List.length_nil] at hj
          omega
        subst hj0
        simp [idxmaxPop]
      · intro j hj
        simp [idxmaxPop] at hj
    · obtain ⟨h1, h2, h3⟩ := ih hr
      have heq : idxmaxPop (v :: rest) =
          if v < rest.getD (idxmaxPop rest) 0 then idxmaxPop rest + 1 else 0 := rfl
      by_cases hv : v < rest.getD (idxmaxPop rest) 0
      · rw [heq, if_pos hv]
        refine ⟨?_, ?_, ?_⟩
        · simp only [List.length_cons]
          omega
        · intro j hj
          cases j with
          | zero =>
            simp only [List.getD_cons_zero, List.getD_cons_succ]
            exact le_of_lt hv
          | succ k =>
            simp only [List.getD_cons_succ]
            apply h2
            simp only [List.length_cons] at hj
            omega
        · intro j hj
          cases j with
          | zero =>
            simp only [List.getD_cons_zero, List.getD_cons_succ]
            exact hv
          | succ k =>
            simp only [List.getD_cons_succ]
            apply h3
            omega
      · rw [heq, if_neg hv]
        push_neg at hv
        refine ⟨by simp, ?_, ?_⟩
        · intro j hj
          cases j with
          | zero => simp
          | succ k =>
            simp only [List.getD_cons_succ, List.getD_cons_zero]
            refine le_trans ?_ hv
            apply h2
            simp only [List.length_cons] at hj
            omega
        · intro j hj
          exact absurd hj (Nat.not_lt_zero j)

/-- C4: in the age view the elderly ratio is elderly population over the
active set's total, times 100 (elderly = the 60+ bands in detailed mode and
the 高齢 aggregated group in traditional mode), rendering to 32.5 in both
modes on the fixed data; and the reported maximum-population row is the
first-occurring maximum (first on ties). -/
theorem age_view_summary_ok (l : List ℕ) (h : l ≠ []) :
    elderly_ratio_detailed =
      (sumIsin elderly_labels load_age_data : ℚ) /
        (df_total load_age_data : ℚ) * 100 ∧
    round1 elderly_ratio_detailed = 325/10 ∧
    elderly_traditional = sumIsin elderly_labels load_age_data ∧
    elderly_ratio_traditional =
      (elderly_traditional : ℚ) /
        (df_total (traditional_df load_age_data) : ℚ) * 100 ∧
    round1 elderly_ratio_traditional = 325/10 ∧
    max_group_label load_age_data = "50-59歳" ∧
    max_group_label (traditional_df load_age_data) = "生産年齢人口（20-59歳）" ∧
    idxmaxPop l < l.length ∧
    (∀ j, j < l.length → l.getD j 0 ≤ l.getD (idxmaxPop l) 0) ∧
    (∀ j, j < idxmaxPop l → l.getD j 0 < l.getD (idxmaxPop l) 0) := by
  obtain ⟨hi1, hi2, hi3⟩ := idxmaxPop_spec l h
  have hd : elderly_ratio_detailed = (39500000 : ℚ) / 121500000 * 100 := by
    unfold elderly_ratio_detailed elderly_60plus
    rw [show sumIsin elderly_labels load_age_data = 39500000 from by decide]
    rw [show df_total load_age_data = 121500000 from by decide]
    norm_num
  have ht : elderly_ratio_traditional = (39500000 : ℚ) / 121500000 * 100 := by
    unfold elderly_ratio_traditional
    rw [show elderly_traditional = 39500000 from by decide]
    rw [show df_total (traditional_df load_age_data) = 121500000 from by decide]
    norm_num
  refine ⟨rfl, ?_, by decide, rfl, ?_, by decide, by decide, hi1, hi2, hi3⟩
  · rw [hd]
    exact round1_eq 325 (by norm_num) (by norm_num) (by norm_num)
  · rw [ht]
    exact round1_eq 325 (by norm_num) (by norm_num) (by norm_num)

/-- C4 witness: the summary facts hold, instantiating the maximum-position
characterization at the list [3, 7, 7, 2], whose tied maximum is reported
at its first position. -/
theorem age_view_summary_ok_witness :
    elderly_ratio_detailed =
      (sumIsin elderly_labels load_age_data : ℚ) /
        (df_total load_age_data : ℚ) * 100 ∧
    round1 elderly_ratio_detailed = 325/10 ∧
    elderly_traditional = sumIsin elderly_labels load_age_data ∧
    elderly_ratio_traditional =
      (elderly_traditional : ℚ) /
        (df_total (traditional_df load_age_data) : ℚ) * 100 ∧
    round1 elderly_ratio_traditional = 325/10 ∧
    max_group_label load_age_data = "50-59歳" ∧
    max_group_label (traditional_df load_age_data) = "生産年齢人口（20-59歳）" ∧
    idxmaxPop [3, 7, 7, 2] < [3, 7, 7, 2].length ∧
    (∀ j, j < [3, 7, 7, 2].length →
      [3, 7, 7, 2].getD j 0 ≤ [3, 7, 7, 2].getD (idxmaxPop [3, 7, 7, 2]) 0) ∧
    (∀ j, j < idxmaxPop [3, 7, 7, 2] →
      [3, 7, 7, 2].getD j 0 < [3, 7, 7, 2].getD (idxmaxPop [3, 7, 7, 2]) 0) :=
  age_view_summary_ok [3, 7, 7, 2] (by decide)

/-- C8: each 構成比 value is the row's population over the column total,
times 100, rounded to one decimal; the 構成比表示 strings carry a trailing
"%"; and the shares sum to 100.0 on the fixed data, within the 0.1-per-row
tolerance for both the 10-row detailed and the 3-row traditional view. -/
theorem share_columns_ok :
    share_column load_age_data =
      [78/10, 92/10, 105/10, 119/10, 138/10, 142/10, 136/10, 102/10, 67/10, 21/10] ∧
    share_column (traditional_df load_age_data) = [170/10, 505/10, 325/10] ∧
    (share_column load_age_data).sum = 100 ∧
    |(share_column load_age_data).sum - 100| ≤ (1/10) * 10 ∧
    (share_column (traditional_df load_age_data)).sum = 100 ∧
    |(share_column (traditional_df load_age_data)).sum - 100| ≤ (1/10) * 3 ∧
    (∀ s ∈ share_display_column load_age_data, ∃ t, s = t ++ "%") ∧
    (∀ s ∈ share_display_column (traditional_df load_age_data), ∃ t, s = t ++ "%") := by
  have h10 : share_column load_age_data =
      [78/10, 92/10, 105/10, 119/10, 138/10, 142/10, 136/10, 102/10, 67/10, 21/10] := by
    unfold share_column
    rw [show df_total load_age_data = 121500000 from by decide]
    simp only [load_age_data, age_groups, age_populations, List.zip, List.zipWith,
      List.map]
    simp only [List.cons.injEq, and_true]
    refine ⟨?_, ?_, ?_, ?_, ?_, ?_, ?_, ?_, ?_, ?_⟩
    · exact round1_eq 78 (by norm_num) (by norm_num) (by norm_num)
    · exact round1_eq 92 (by norm_num) (by norm_num) (by norm_num)
    · exact round1_eq 105 (by norm_num) (by norm_num) (by norm_num)
    · exact round1_eq 119 (by norm_num) (by norm_num) (by norm_num)
    · exact round1_eq 138 (by norm_num) (by norm_num) (by norm_num)
    · exact round1_eq 142 (by norm_num) (by norm_num) (by norm_num)
    · exact round1_eq 136 (by norm_num) (by norm_num) (by norm_num)
    · exact round1_eq 102 (by norm_num) (by norm_num) (by norm_num)
    · exact round1_eq 67 (by norm_num) (by norm_num) (by norm_num)
    · exact round1_eq 21 (by norm_num) (by norm_num) (by norm_num)
  have htrad : traditional_df load_age_data =
      [("年少人口（0-19歳）", 20700000), ("生産年齢人口（20-59歳）", 61300000),
       ("高齢人口（60歳以上）", 39500000)] := by decide
  have h3c : share_column (traditional_df load_age_data) = [170/10, 505/10, 325/10] := by
    unfold share_column
    rw [htrad]
    rw [show df_total
        [("年少人口（0-19歳）", 20700000), ("生産年齢人口（20-59歳）", 61300000),
         ("高齢人口（60歳以上）", 39500000)] = 121500000 from by decide]
    simp only [List.map]
    simp only [List.cons.injEq, and_true]
    refine ⟨?_, ?_, ?_⟩
    · exact round1_eq 170 (by norm_num) (by norm_num) (by norm_num)
    · exact round1_eq 505 (by norm_num) (by norm_num) (by norm_num)
    · exact round1_eq 325 (by norm_num) (by norm_num) (by norm_num)
  have hs10 : (share_column load_age_data).sum = 100 := by
    rw [h10]
    norm_num [List.sum_cons, List.sum_nil]
  have hs3 : (share_column (traditional_df load_age_data)).sum = 100 := by
    rw [h3c]
    norm_num [List.sum_cons, List.sum_nil]
  refine ⟨h10, h3c, hs10, ?_, hs3, ?_, ?_, ?_⟩
  · rw [hs10]
    norm_num
  · rw [hs3]
    norm_num
  · intro s hs
    obtain ⟨q, hq, rfl⟩ := List.mem_map.mp hs
    exact ⟨oneDecimalStr q, rfl⟩
  · intro s hs
    obtain ⟨q, hq, rfl⟩ := List.mem_map.mp hs
    exact ⟨oneDecimalStr q, rfl⟩

/-- C5: the density-view top-20 has 20 rows, is ordered descending by
density (ties, if any, by source order), is contained in the 47 enumerated
records, every record left out has density at most that of every record
kept, and its first row is 東京都 with population 14047594 and area 2194. -/
theorem density_top20_ok :
    top20_density.length = 20 ∧
    List.Pairwise (fun a b : ℕ × PrefRow =>
      b.2.density ≤ a.2.density ∧ (b.2.density = a.2.density → a.1 < b.1)) top20_density ∧
    (∀ x ∈ top20_density, x ∈ load_prefecture_data.enum) ∧
    (∀ y ∈ load_prefecture_data.enum, y ∉ top20_density →
      ∀ x ∈ top20_density, y.2.density ≤ x.2.density) ∧
    (top20_density.head?.map fun x => x.2.prefecture) = some "東京都" ∧
    (top20_density.head?.map fun x => (x.2.population, x.2.area)) = some (14047594, 2194) := by
  unfold top20_density
  rw [load_prefecture_data_eq]
  decide

/-- If a row is kept by `nlargestBy key n`, fewer than `n` rows of the
original list have a strictly larger key. -/
lemma countP_lt_of_mem_nlargestBy {α β : Type} [LinearOrder β] {key : α → β}
    {n : ℕ} {l : List α} {x : α} (hx : x ∈ nlargestBy key n l) :
    l.countP (fun y => decide (key x < key y)) < n := by
  haveI : IsTotal α fun a b => key b ≤ key a := ⟨fun a b => le_total (key b) (key a)⟩
  haveI : IsTrans α fun a b => key b ≤ key a := ⟨fun a b c h1 h2 => le_trans h2 h1⟩
  unfold nlargestBy at hx
  set s := l.insertionSort (fun a b => key b ≤ key a) with hs
  have hsorted : List.Pairwise (fun a b => key b ≤ key a) s :=
    List.sorted_insertionSort _ l
  have hperm : s.Perm l := List.perm_insertionSort _ l
  obtain ⟨i, hi, hxi⟩ := List.getElem_of_mem hx
  have hmin : i < min n s.length := by simpa [List.length_take] using hi
  have hilen : i < s.length := lt_of_lt_of_le hmin (min_le_right _ _)
  have hin : i < n := lt_of_lt_of_le hmin (min_le_left _ _)
  have hxi2 : s[i] = x := by rw [← hxi, List.getElem_take]
  rw [← hperm.countP_eq]
  have hzero : (s.drop (i+1)).countP (fun y => decide (key x < key y)) = 0 := by
    rw [List.countP_eq_zero]
    intro y hy
    obtain ⟨j, hj, hyj⟩ := List.getElem_of_mem hy
    have hjlen : i + 1 + j < s.length := by
      have hj2 : j < s.length - (i+1) := by simpa [List.length_drop] using hj
      omega
    have hrel : key s[i+1+j] ≤ key s[i] :=
      List.pairwise_iff_getElem.mp hsorted i (i+1+j) hilen hjlen (by omega)
    rw [hxi2] at hrel
    rw [← hyj, List.getElem_drop]
    simp only [decide_eq_true_eq]
    exact not_lt.mpr hrel
  have hsplit : (s.take (i+1)).countP (fun y => decide (key x < key y)) ≤ i := by
    rw [List.take_succ, List.getElem?_eq_getElem hilen, List.countP_append]
    have h1 : (s.take i).countP (fun y => decide (key x < key y)) ≤ i :=
      le_trans (List.countP_le_length _) (by simp [List.length_take])
    have h2 : ((some s[i]).toList).countP
        (fun y => decide (key x < key y)) = 0 := by
      simp [hxi2]
    omega
  have hcount : s.countP (fun y => decide (key x < key y)) ≤ i := by
    conv_lhs => rw [← List.take_append_drop (i+1) s]
    rw [List.countP_append, hzero]
    omega
  omega

/-- If a row is kept by `nsmallestBy key n`, fewer than `n` rows of the
original list have a strictly smaller key. -/
lemma countP_lt_of_mem_nsmallestBy {α β : Type} [LinearOrder β] {key : α → β}
    {n : ℕ} {l : List α} {x : α} (hx : x ∈ nsmallestBy key n l) :
    l.countP (fun y => decide (key y < key x)) < n := by
  haveI : IsTotal α fun a b => key a ≤ key b := ⟨fun a b => le_total (key a) (key b)⟩
  haveI : IsTrans α fun a b => key a ≤ key b := ⟨fun a b c h1 h2 => le_trans h1 h2⟩
  unfold nsmallestBy at hx
  set s := l.insertionSort (fun a b => key a ≤ key b) with hs
  have hsorted : List.Pairwise (fun a b => key a ≤ key b) s :=
    List.sorted_insertionSort _ l
  have hperm : s.Perm l := List.perm_insertionSort _ l
  obtain ⟨i, hi, hxi⟩ := List.getElem_of_mem hx
  have hmin : i < min n s.length := by simpa [List.length_take] using hi
  have hilen : i < s.length := lt_of_lt_of_le hmin (min_le_right _ _)
  have hin : i < n := lt_of_lt_of_le hmin (min_le_left _ _)
  have hxi2 : s[i] = x := by rw [← hxi, List.getElem_take]
  rw [← hperm.countP_eq]
  have hzero : (s.drop (i+1)).countP (fun y => decide (key y < key x)) = 0 := by
    rw [List.countP_eq_zero]
    intro y hy
    obtain ⟨j, hj, hyj⟩ := List.getElem_of_mem hy
    have hjlen : i + 1 + j < s.length := by
      have hj2 : j < s.length - (i+1) := by simpa [List.length_drop] using hj
      omega
    have hrel : key s[i] ≤ key s[i+1+j] :=
      List.pairwise_iff_getElem.mp hsorted i (i+1+j) hilen hjlen (by omega)
    rw [hxi2] at hrel
    rw [← hyj, List.getElem_drop]
    simp only [decide_eq_true_eq]
    exact not_lt.mpr hrel
  have hsplit : (s.take (i+1)).countP (fun y => decide (key y < key x)) ≤ i := by
    rw [List.take_succ, List.getElem?_eq_getElem hilen, List.countP_append]
    have h1 : (s.take i).countP (fun y => decide (key y < key x)) ≤ i :=
      le_trans (List.countP_le_length _) (by simp [List.length_take])
    have h2 : ((some s[i]).toList).countP
        (fun y => decide (key y < key x)) = 0 := by
      simp [hxi2]
    omega
  have hcount : s.countP (fun y => decide (key y < key x)) ≤ i := by
    conv_lhs => rw [← List.take_append_drop (i+1) s]
    rw [List.countP_append, hzero]
    omega
  omega

/-- Any list of naturals is no longer than the values above `k`, at `k`,
and below `k` counted together. -/
lemma length_le_countP_tri (V : List ℕ) (k : ℕ) :
    V.length ≤ V.countP (fun v => decide (k < v)) +
      (V.countP (fun v => decide (v = k)) + V.countP (fun v => decide (v < k))) := by
  induction V with
  | nil => simp
  | cons v t ih =>
    simp only [List.countP_cons, List.length_cons]
    rcases Nat.lt_trichotomy k v with h | h | h
    · have e1 : decide (k < v) = true := decide_eq_true h
      have e2 : decide (v = k) = false := decide_eq_false (ne_of_gt h)
      have e3 : decide (v < k) = false := decide_eq_false (Nat.lt_asymm h)
      simp [e1, e2, e3]
      omega
    · subst h
      have e1 : decide (k < k) = false := decide_eq_false (lt_irrefl k)
      have e2 : decide (k = k) = true := decide_eq_true rfl
      simp [e1, e2]
      omega
    · have e1 : decide (k < v) = false := decide_eq_false (Nat.lt_asymm h)
      have e2 : decide (v = k) = false := decide_eq_false (ne_of_lt h)
      have e3 : decide (v < k) = true := decide_eq_true h
      simp [e1, e2, e3]
      omega

/-- A duplicate-free list of naturals holds the value `k` at most once. -/
lemma countP_eq_le_one_of_nodup (V : List ℕ) (k : ℕ) (h : V.Nodup) :
    V.countP (fun v => decide (v = k)) ≤ 1 := by
  induction V with
  | nil => simp
  | cons v t ih =>
    rw [List.countP_cons]
    rcases List.nodup_cons.mp h with ⟨hv, ht⟩
    by_cases hvk : v = k
    · subst hvk
      have hz : t.countP (fun x => decide (x = v)) = 0 := by
        rw [List.countP_eq_zero]
        intro a ha
        simp only [decide_eq_true_eq]
        intro he
        exact hv (he ▸ ha)
      simp [hz]
    · have e : decide (v = k) = false := decide_eq_false hvk
      simp [e]
      have := ih ht
      omega

/-- C7: whenever the prefecture dataset has at least 20 distinct population
values, the top-10-by-population and bottom-10-by-population selections
(stable descending/ascending, ties by source order) share no row. -/
theorem top10_bottom10_disjoint (df : List PrefRow)
    (h : 20 ≤ ((df.map fun r => r.population).dedup).length) :
    List.Disjoint (top10_pop df) (bottom10_pop df) := by
  intro x hxT hxB
  unfold top10_pop at hxT
  unfold bottom10_pop at hxB
  have hT := countP_lt_of_mem_nlargestBy hxT
  have hB := countP_lt_of_mem_nsmallestBy hxB
  have henum : ∀ p : ℕ → Bool,
      (df.enum).countP (fun y => p y.2.population) =
        (df.map fun r => r.population).countP p := by
    intro p
    rw [List.countP_map p (fun r => r.population) df]
    conv_rhs => rw [← List.enum_map_snd df]
    rw [List.countP_map]
    rfl
  have hT2 : (df.map fun r => r.population).countP
      (fun v => decide (x.2.population < v)) < 10 := by
    rw [← henum (fun v => decide (x.2.population < v))]
    exact hT
  have hB2 : (df.map fun r => r.population).countP
      (fun v => decide (v < x.2.population)) < 10 := by
    rw [← henum (fun v => decide (v < x.2.population))]
    exact hB
  set V := (df.map fun r => r.population).dedup with hV
  have hgt : V.countP (fun v => decide (x.2.population < v)) ≤
      (df.map fun r => r.population).countP (fun v => decide (x.2.population < v)) :=
    (List.dedup_sublist _).countP_le _
  have hlt : V.countP (fun v => decide (v < x.2.population)) ≤
      (df.map fun r => r.population).countP (fun v => decide (v < x.2.population)) :=
    (List.dedup_sublist _).countP_le _
  have htri := length_le_countP_tri V x.2.population
  have hone := countP_eq_le_one_of_nodup V x.2.population (List.nodup_dedup _)
  omega

/-- C7 witness: on the fixed 47-record dataset the population values have
at least 20 distinct values, so the two selections are disjoint. -/
theorem top10_bottom10_disjoint_witness :
    List.Disjoint (top10_pop load_prefecture_data) (bottom10_pop load_prefecture_data) :=
  top10_bottom10_disjoint load_prefecture_data (by decide)
